import Mathlib

/-!
Shallow embedding of the mapflow dashboard's color-resolution pipeline:
the threshold rule evaluator and geometry helpers of
src/services/weatherService.ts, and the value resolver / store actions of
src/store/dashboardStore.ts.  Numbers are modelled as rationals, JS Date
instants as integer day numbers plus an hour-of-day (the app requests
timezone=UTC, and the model assumes a UTC runtime, so local time and UTC
coincide).
-/

namespace Mapflow

/-- The five comparison operators a color rule may carry
(src/store/dashboardStore.ts, interface ColorRule). -/
inductive ColorOp
  | eq
  | lt
  | gt
  | le
  | ge
deriving DecidableEq, Repr

/-- A color rule: operator, threshold (field name kept as in the source:
`value`), and a color string (src/store/dashboardStore.ts lines 4-9; the
`id` field plays no role in evaluation and is omitted there by
`getPolygonColor`, which destructures only operator/value/color). -/
structure ColorRule where
  id : String
  operator : ColorOp
  value : ℚ
  color : String
deriving DecidableEq, Repr

/-- The operator/threshold test of the `switch` in
WeatherService.getPolygonColor (src/services/weatherService.ts lines
143-159): standard numeric comparison of the value against the rule
threshold. -/
def ruleMatches (v : ℚ) (r : ColorRule) : Bool :=
  match r.operator with
  | .eq => v == r.value
  | .lt => decide (v < r.value)
  | .gt => decide (r.value < v)
  | .le => decide (v ≤ r.value)
  | .ge => decide (r.value ≤ v)

/-- One step of the stable insertion sort that models the JavaScript
`[...colorRules].sort((a, b) => a.value - b.value)` call
(src/services/weatherService.ts line 138).  `Array.prototype.sort` is
stable, so an element is inserted before the first element with a
strictly larger-or-equal key only when its own key is not larger; ties
keep the original relative order. -/
def insertByValue (r : ColorRule) : List ColorRule → List ColorRule
  | [] => [r]
  | x :: xs => if r.value ≤ x.value then r :: x :: xs else x :: insertByValue r xs

/-- The sorted copy `sortedRules` of src/services/weatherService.ts line
138: a stable sort of the rules, ascending by threshold. -/
def sortRules : List ColorRule → List ColorRule
  | [] => []
  | r :: rs => insertByValue r (sortRules rs)

/-- The first-match loop of WeatherService.getPolygonColor
(src/services/weatherService.ts lines 140-163): return the color of the
first rule whose test passes, else the fixed default. -/
def firstMatchColor (v : ℚ) : List ColorRule → String
  | [] => "#94a3b8"
  | r :: rs => if ruleMatches v r then r.color else firstMatchColor v rs

/-- WeatherService.getPolygonColor (src/services/weatherService.ts lines
127-164).  A `null` value (modelled as `none`) yields the fixed no-data
color; otherwise the rules are stably sorted ascending by threshold and
the first passing rule's color is returned, with a fixed default when no
rule matches. -/
def getPolygonColor (value : Option ℚ) (colorRules : List ColorRule) : String :=
  match value with
  | none => "#gray-400"
  | some v => firstMatchColor v (sortRules colorRules)

/-- Two-digit zero padding, as in
`targetDate.getHours().toString().padStart(2, ...)`
(src/store/dashboardStore.ts line 232). -/
def pad2 (n : ℕ) : String :=
  if n < 10 then ("0") ++ toString n else toString n

/-- Four-digit zero padding for the year of an ISO date.  Negative years
(impossible for the dates the app manipulates) fall back to the plain
decimal form. -/
def pad4 (y : ℤ) : String :=
  if y < 0 then toString y
  else (if y < 10 then ("000") else if y < 100 then ("00")
        else if y < 1000 then ("0") else ("")) ++ toString y

/-- Proleptic Gregorian calendar: day number (days since 1970-01-01, UTC)
to (year, month, day).  Standard civil-from-days conversion; models how a
JavaScript Date renders its day component in toISOString. -/
def civilFromDays (z0 : ℤ) : ℤ × ℕ × ℕ :=
  let z := z0 + 719468
  let era : ℤ := z / 146097
  let doe : ℕ := (z % 146097).toNat
  let yoe : ℕ := (doe - doe / 1460 + doe / 36524 - doe / 146096) / 365
  let doy : ℕ := doe - (365 * yoe + yoe / 4 - yoe / 100)
  let mp : ℕ := (5 * doy + 2) / 153
  let dd : ℕ := doy - (153 * mp + 2) / 5 + 1
  let mm : ℕ := if mp < 10 then mp + 3 else mp - 9
  ((if mm ≤ 2 then (yoe : ℤ) + era * 400 + 1 else (yoe : ℤ) + era * 400), mm, dd)

/-- The date part of `toISOString` for a UTC day number:
`date.toISOString().split(...)[0]`, a YYYY-MM-DD string
(src/store/dashboardStore.ts line 231). -/
def formatDay (day : ℤ) : String :=
  match civilFromDays day with
  | (y, m, d) => pad4 y ++ "-" ++ pad2 m ++ "-" ++ pad2 d

/-- Timeline mode (src/store/dashboardStore.ts line 34). -/
inductive TimelineMode
  | single
  | range
deriving DecidableEq, Repr

/-- TimelineState (src/store/dashboardStore.ts lines 33-38).  The base
date instant is modelled at hour granularity as a UTC calendar day number
plus an hour-of-day; the resolver overwrites the hour with setHours, so
`baseDateHour` is carried only to show it is discarded. -/
structure TimelineState where
  mode : TimelineMode
  selectedHour : ℕ
  selectedRange : ℕ × ℕ
  baseDateDay : ℤ
  baseDateHour : ℕ
deriving DecidableEq, Repr

/-- WeatherData (src/store/dashboardStore.ts lines 40-44): one time
series point, with its timestamp kept as the string the API returned. -/
structure WeatherData where
  polygonId : String
  timestamp : String
  value : ℚ
deriving DecidableEq, Repr

/-- The bounding-box record of WeatherService.calculateBoundingBox
(src/services/weatherService.ts lines 107-112). -/
structure BoundingBox where
  minLat : ℚ
  maxLat : ℚ
  minLng : ℚ
  maxLng : ℚ
deriving DecidableEq, Repr

/-- Polygon (src/store/dashboardStore.ts lines 18-31); vertices are
(lat, lng) pairs. -/
structure Polygon where
  id : String
  points : List (ℚ × ℚ)
  dataSourceId : String
  color : String
  name : Option String
  centroid : ℚ × ℚ
  boundingBox : BoundingBox
deriving DecidableEq, Repr

/-- DataSource (src/store/dashboardStore.ts lines 11-16). -/
structure DataSource where
  id : String
  name : String
  field : String
  colorRules : List ColorRule
deriving DecidableEq, Repr

/-- The slice of the zustand store the modelled actions read and write
(src/store/dashboardStore.ts lines 46-82); the Map of weather data is
modelled as an association list keyed by polygon id. -/
structure DashboardState where
  timeline : TimelineState
  polygons : List Polygon
  selectedPolygonId : Option String
  drawingMode : Bool
  dataSources : List DataSource
  weatherData : List (String × List WeatherData)
  isLoading : Bool
deriving DecidableEq, Repr

/-- The read `state.weatherData.get(polygonId)` on the association-list
model of the Map: `none` models undefined. -/
def lookupWeather : List (String × List WeatherData) → String → Option (List WeatherData)
  | [], _ => none
  | (k, v) :: rest, pid => if k == pid then some v else lookupWeather rest pid

/-- JavaScript `Array.prototype.filter` with the element index in scope,
as used by `data.filter((d, index) => ...)`
(src/store/dashboardStore.ts lines 239-241); the numeric argument is the
index of the first element of the remaining list. -/
def filterIdx {α : Type} (p : ℕ → α → Bool) : ℕ → List α → List α
  | _, [] => []
  | i, x :: xs => if p i x then x :: filterIdx p (i + 1) xs else filterIdx p (i + 1) xs

/-- getPolygonCurrentValue (src/store/dashboardStore.ts lines 219-248).
Missing or empty cached series yields null.  Single mode: start from the
base date, move back 15 days, overwrite the hour-of-day with
selectedHour mod 24, add selectedHour div 24 days, format the result as a
YYYY-MM-DDTHH:00 string and return the value of the first series entry
whose timestamp starts with it, else null.  Range mode: keep the entries
whose positional index lies in [start, end] and return their arithmetic
mean, or null when none remain. -/
def getPolygonCurrentValue (s : DashboardState) (polygonId : String) : Option ℚ :=
  match lookupWeather s.weatherData polygonId with
  | none => none
  | some data =>
    if data.length = 0 then none
    else
      match s.timeline.mode with
      | .single =>
        let targetHour := s.timeline.selectedHour
        let d1 : ℤ := s.timeline.baseDateDay - 15
        let h1 : ℕ := targetHour % 24
        let d2 : ℤ := d1 + ((targetHour / 24 : ℕ) : ℤ)
        let targetTimestamp := formatDay d2 ++ "T" ++ pad2 h1 ++ ":00"
        match data.find? (fun d => d.timestamp.startsWith targetTimestamp) with
        | some r => some r.value
        | none => none
      | .range =>
        let startHour := s.timeline.selectedRange.1
        let endHour := s.timeline.selectedRange.2
        let relevantData :=
          filterIdx (fun i _ => decide (startHour ≤ i) && decide (i ≤ endHour)) 0 data
        if relevantData.length = 0 then none
        else some (relevantData.foldl (fun acc d => acc + d.value) 0 / (relevantData.length : ℚ))

/-- removePolygon (src/store/dashboardStore.ts lines 182-185): drop the
polygon from the list and clear the selection when it pointed at the
deleted polygon.  No other state field is touched. -/
def removePolygon (id : String) (s : DashboardState) : DashboardState :=
  { s with
    polygons := s.polygons.filter (fun p => p.id != id),
    selectedPolygonId :=
      if s.selectedPolygonId == some id then none else s.selectedPolygonId }

/-- The absolute instant, counted in hours from the day-number epoch,
named by the spec for single mode: the base calendar date shifted back 15
days, then forward by the offset in hours. -/
def singleTargetInstant (baseDay : ℤ) (off : ℕ) : ℤ :=
  (baseDay - 15) * 24 + (off : ℤ)

/-- The hour-truncated ISO rendering (YYYY-MM-DDTHH:00) of an absolute
hour instant. -/
def hourStampOfInstant (t : ℤ) : String :=
  formatDay (t / 24) ++ "T" ++ pad2 ((t % 24).toNat) ++ ":00"

/-- WeatherService.calculateCentroid (src/services/weatherService.ts
lines 97-102): reduce-based sums of the two coordinates divided by the
point count. -/
def calculateCentroid (points : List (ℚ × ℚ)) : ℚ × ℚ :=
  let sumLat := points.foldl (fun sum p => sum + p.1) 0
  let sumLng := points.foldl (fun sum p => sum + p.2) 0
  (sumLat / (points.length : ℚ), sumLng / (points.length : ℚ))

/-- The spread call `Math.min(...xs)` over a list of rationals.  On the empty list the
JavaScript call yields Infinity, which ℚ cannot represent; that case is
unreachable for the non-empty point lists the claims concern and is
modelled as 0. -/
def jsMinList : List ℚ → ℚ
  | [] => 0
  | x :: xs => xs.foldl min x

/-- The spread call `Math.max(...xs)`; empty case as in `jsMinList` (JavaScript yields
negative Infinity there). -/
def jsMaxList : List ℚ → ℚ
  | [] => 0
  | x :: xs => xs.foldl max x

/-- WeatherService.calculateBoundingBox (src/services/weatherService.ts
lines 107-122): per-axis min/max of the projected coordinate lists. -/
def calculateBoundingBox (points : List (ℚ × ℚ)) : BoundingBox :=
  let lats := points.map Prod.fst
  let lngs := points.map Prod.snd
  ⟨jsMinList lats, jsMaxList lats, jsMinList lngs, jsMaxList lngs⟩

/-- A JavaScript numeric array cell as the weather adapter sees it: a
number, null, or NaN; a read past the end of the array (undefined) is
modelled by `Option.none` at the lookup. -/
inductive JsNum
  | num (q : ℚ)
  | jnull
  | jnan
deriving DecidableEq, Repr

/-- JavaScript truthiness test on `valueArray[index]`: undefined, null,
NaN and 0 are falsy. -/
def jsFalsy : Option JsNum → Bool
  | none => true
  | some .jnull => true
  | some .jnan => true
  | some (.num q) => q == 0

/-- The expression `valueArray[index] || 0`
(src/services/weatherService.ts line 70): the number itself when the
cell holds a truthy value, otherwise 0 (NaN, null, undefined and a
genuine 0 reading all collapse to 0). -/
def jsOrZero : Option JsNum → ℚ
  | some (.num q) => q
  | _ => 0

/-- JavaScript `Array.prototype.map` with the element index in scope, as
used by `timeArray.map((timestamp, index) => ...)`
(src/services/weatherService.ts line 67). -/
def jsMapIdx {α β : Type} (f : ℕ → α → β) : ℕ → List α → List β
  | _, [] => []
  | i, x :: xs => f i x :: jsMapIdx f (i + 1) xs

/-- WeatherService.transformWeatherData (src/services/weatherService.ts
lines 58-72): one output point per entry of the hourly time array, in
order, pairing each timestamp with `valueArray[index] || 0`. -/
def transformWeatherData (polygonId : String) (timeArray : List String)
    (valueArray : List JsNum) : List WeatherData :=
  jsMapIdx (fun index timestamp => ⟨polygonId, timestamp, jsOrZero (valueArray.get? index)⟩)
    0 timeArray

/-- Milliseconds per day: the `24 * 60 * 60 * 1000` factor of the
five-day cutoff in isValidDateForAPI. -/
def msPerDay : ℤ := 86400000

/-- The instant 1940-01-01T00:00:00Z of `new Date(...)`, in epoch milliseconds
(10958 days before the epoch). -/
def minDateMs : ℤ := -946771200000

/-- WeatherService.isValidDateForAPI (src/services/weatherService.ts
lines 169-175): the date lies between 1940-01-01 and five days before
now.  Instants are epoch milliseconds; `now` is passed explicitly. -/
def isValidDateForAPI (nowMs dateMs : ℤ) : Bool :=
  decide (minDateMs ≤ dateMs) && decide (dateMs ≤ nowMs - 5 * msPerDay)

/-- WeatherService.getDateRange (src/services/weatherService.ts lines
84-92) at instant level: 15 days before and after the base date (UTC, so
a calendar-day shift is a fixed millisecond shift). -/
def getDateRangeMs (baseMs : ℤ) : ℤ × ℤ :=
  (baseMs - 15 * msPerDay, baseMs + 15 * msPerDay)

/-- Whether fetchWeatherDataForPolygon in
src/components/TimelineSlider.tsx (lines 600-624) reaches the outbound
`WeatherService.fetchWeatherData` call.  The body looks the data source
up, computes the date range, and calls fetchWeatherData unconditionally:
the only early return is a missing data source, and isValidDateForAPI is
never consulted on this path, whatever `now` and the base date are. -/
def timelineSliderIssuesRemoteRequest (dataSourceFound : Bool)
    (nowMs baseMs : ℤ) : Bool :=
  let _ := getDateRangeMs baseMs
  let _ := nowMs
  dataSourceFound

/-- Whether fetchWeatherDataForAllPolygons in
src/components/Dashboard.tsx (lines 68-113) reaches the outbound fetch:
it validates both endpoints of the date range with isValidDateForAPI and
skips the remote call when either is out of the window. -/
def dashboardIssuesRemoteRequest (nowMs baseMs : ℤ) : Bool :=
  isValidDateForAPI nowMs (getDateRangeMs baseMs).1 &&
    isValidDateForAPI nowMs (getDateRangeMs baseMs).2

/-- The three-rule example named by the spec: below 10 color A, at least
10 color B, at least 25 color C. -/
def exampleRulesC1 : List ColorRule :=
  [⟨"1", ColorOp.lt, 10, "A"⟩, ⟨"2", ColorOp.ge, 10, "B"⟩, ⟨"3", ColorOp.ge, 25, "C"⟩]

/-- The ascending-by-threshold ordering the rules are sorted by. -/
def leByValue (a b : ColorRule) : Prop := a.value ≤ b.value

/-- Two rules with the same threshold but different colors, in their
original order. -/
def tieRules : List ColorRule :=
  [⟨"1", ColorOp.eq, 5, "#a"⟩, ⟨"2", ColorOp.eq, 5, "#b"⟩]

/-- The same two equal-threshold rules, shuffled. -/
def tieRulesShuffled : List ColorRule :=
  [⟨"2", ColorOp.eq, 5, "#b"⟩, ⟨"1", ColorOp.eq, 5, "#a"⟩]

/-- Three rules with pairwise distinct thresholds. -/
def distinctRules : List ColorRule :=
  [⟨"1", ColorOp.lt, 10, "A"⟩, ⟨"2", ColorOp.ge, 20, "B"⟩, ⟨"3", ColorOp.ge, 25, "C"⟩]

/-- A shuffle of `distinctRules`. -/
def distinctRulesShuffled : List ColorRule :=
  [⟨"3", ColorOp.ge, 25, "C"⟩, ⟨"1", ColorOp.lt, 10, "A"⟩, ⟨"2", ColorOp.ge, 20, "B"⟩]

/-- A rule set whose only rule uses the no-data color itself, and which
no positive value matches. -/
def grayRules : List ColorRule :=
  [⟨"1", ColorOp.eq, 0, "#gray-400"⟩]

/-- A rule set that the value 5 matches nowhere. -/
def noMatchRules : List ColorRule :=
  [⟨"1", ColorOp.lt, 0, "#1890ff"⟩]

/-- A 720-point series covering the full 30-day hour grid, every value
equal to 360. -/
def series720 : List WeatherData :=
  List.replicate 720 ⟨"p", "", 360⟩

/-- A store state with an empty weather cache. -/
def emptyState : DashboardState :=
  ⟨⟨TimelineMode.single, 360, (350, 370), 20000, 0⟩, [], none, false, [], [], false⟩

/-- A triangle polygon, for the deletion scenario. -/
def polygonOne : Polygon :=
  ⟨"p1", [(0, 0), (0, 2), (2, 2)], "temperature", "#1890ff", none, (1, 1), ⟨0, 2, 0, 2⟩⟩

/-- A cached weather point for that polygon. -/
def weatherPointOne : WeatherData :=
  ⟨"p1", "2024-01-01T00:00", 1⟩

/-- A store state holding the polygon and its cached series. -/
def stateWithPolygonOne : DashboardState :=
  ⟨⟨TimelineMode.single, 360, (350, 370), 19723, 0⟩, [polygonOne], some ("p1"), false, [],
    [("p1", [weatherPointOne])], false⟩

/-- The unit-square point list of the spec's geometry example. -/
def squarePts : List (ℚ × ℚ) :=
  [(0, 0), (0, 2), (2, 2), (2, 0)]

/-! ### Lemmas about the stable insertion sort of the rule evaluator -/

theorem insertByValue_perm (r : ColorRule) (l : List ColorRule) :
    List.Perm (insertByValue r l) (r :: l) := by
  induction l with
  | nil => rfl
  | cons x xs ih =>
    by_cases h : r.value ≤ x.value
    · simp [insertByValue, h]
    · simp only [insertByValue, h, if_false]
      exact (ih.cons x).trans (List.Perm.swap r x xs)

theorem sortRules_perm (l : List ColorRule) : List.Perm (sortRules l) l := by
  induction l with
  | nil => rfl
  | cons x xs ih => exact (insertByValue_perm x (sortRules xs)).trans (ih.cons x)

theorem insertByValue_pairwise (r : ColorRule) (l : List ColorRule)
    (h : l.Pairwise leByValue) : (insertByValue r l).Pairwise leByValue := by
  induction l with
  | nil => simp [insertByValue, leByValue]
  | cons x xs ih =>
    rcases List.pairwise_cons.mp h with ⟨hx, hxs⟩
    by_cases hle : r.value ≤ x.value
    · simp only [insertByValue, hle, if_true]
      refine List.pairwise_cons.mpr ⟨?_, h⟩
      intro y hy
      rcases List.mem_cons.mp hy with rfl | hy
      · exact hle
      · exact le_trans hle (hx y hy)
    · simp only [insertByValue, hle, if_false]
      refine List.pairwise_cons.mpr ⟨?_, ih hxs⟩
      intro y hy
      have hy' := (insertByValue_perm r xs).mem_iff.mp hy
      rcases List.mem_cons.mp hy' with rfl | hy''
      · exact le_of_lt (lt_of_not_le hle)
      · exact hx y hy''

theorem sortRules_pairwise (l : List ColorRule) :
    (sortRules l).Pairwise leByValue := by
  induction l with
  | nil => exact List.Pairwise.nil
  | cons x xs ih => exact insertByValue_pairwise x (sortRules xs) ih

theorem insertByValue_filter_value (r : ColorRule) (l : List ColorRule) (q : ℚ) :
    (insertByValue r l).filter (fun x => decide (x.value = q)) =
      (r :: l).filter (fun x => decide (x.value = q)) := by
  induction l with
  | nil => rfl
  | cons x xs ih =>
    by_cases hle : r.value ≤ x.value
    · simp [insertByValue, hle]
    · have hxr : x.value < r.value := lt_of_not_le hle
      simp only [insertByValue, hle, if_false]
      by_cases hx : x.value = q
      · have hr : ¬ r.value = q := by
          intro hrq
          exact absurd (hx.trans hrq.symm) (ne_of_lt hxr)
        simp [List.filter, hx, hr, ih, hr]
      · simp only [List.filter, hx, decide_eq_true_eq, decide_eq_false hx]
        rw [ih]
        simp [List.filter]

theorem sortRules_stable (l : List ColorRule) (q : ℚ) :
    (sortRules l).filter (fun x => decide (x.value = q)) =
      l.filter (fun x => decide (x.value = q)) := by
  induction l with
  | nil => rfl
  | cons x xs ih =>
    rw [sortRules, insertByValue_filter_value]
    by_cases hx : x.value = q
    · simp [List.filter, hx, ih]
    · simp [List.filter, decide_eq_false hx, ih]

theorem firstMatchColor_eq_find (v : ℚ) (l : List ColorRule) :
    firstMatchColor v l = ((l.find? (ruleMatches v)).map ColorRule.color).getD ("#94a3b8") := by
  induction l with
  | nil => rfl
  | cons r rs ih =>
    by_cases h : ruleMatches v r
    · simp [firstMatchColor, List.find?, h]
    · simp [firstMatchColor, List.find?, h, ih]

theorem sortRules_eq_of_perm_of_nodup_values (l₁ l₂ : List ColorRule)
    (hp : List.Perm l₁ l₂) (hd : (l₁.map ColorRule.value).Nodup) :
    sortRules l₁ = sortRules l₂ := by
  haveI : IsAntisymm ColorRule (fun a b => a.value < b.value) :=
    ⟨fun a b h h' => (lt_asymm h h').elim⟩
  have hperm : List.Perm (sortRules l₁) (sortRules l₂) :=
    ((sortRules_perm l₁).trans hp).trans (sortRules_perm l₂).symm
  have hne₁ : (sortRules l₁).Pairwise (fun a b => a.value ≠ b.value) := by
    have : (sortRules l₁).Nodup → True := fun _ => trivial
    have hmapsort : ((sortRules l₁).map ColorRule.value).Nodup :=
      ((sortRules_perm l₁).map ColorRule.value).nodup_iff.mpr hd
    exact (List.pairwise_map).mp hmapsort
  have hne₂ : (sortRules l₂).Pairwise (fun a b => a.value ≠ b.value) := by
    have hd₂ : (l₂.map ColorRule.value).Nodup := (hp.map ColorRule.value).nodup_iff.mp hd
    have hmapsort : ((sortRules l₂).map ColorRule.value).Nodup :=
      ((sortRules_perm l₂).map ColorRule.value).nodup_iff.mpr hd₂
    exact (List.pairwise_map).mp hmapsort
  have hs₁ : (sortRules l₁).Pairwise (fun a b => a.value < b.value) :=
    ((sortRules_pairwise l₁).and hne₁).imp (fun h => lt_of_le_of_ne h.1 h.2)
  have hs₂ : (sortRules l₂).Pairwise (fun a b => a.value < b.value) :=
    ((sortRules_pairwise l₂).and hne₂).imp (fun h => lt_of_le_of_ne h.1 h.2)
  exact List.eq_of_perm_of_sorted hperm hs₁ hs₂

/-! ### Indexed filter and map lemmas for the resolver and the adapter -/

theorem filterIdx_shift {α : Type} (p : ℕ → α → Bool) (l : List α) (k : ℕ) :
    filterIdx p (k + 1) l = filterIdx (fun i a => p (i + 1) a) k l := by
  induction l generalizing k with
  | nil => rfl
  | cons x xs ih =>
    simp only [filterIdx]
    rw [ih (k + 1)]

theorem filterIdx_false {α : Type} (l : List α) (k : ℕ) :
    filterIdx (fun _ _ => false) k l = [] := by
  induction l generalizing k with
  | nil => rfl
  | cons x xs ih => simpa [filterIdx] using ih (k + 1)

theorem filterIdx_window {α : Type} (l : List α) (st en : ℕ) :
    filterIdx (fun i _ => decide (st ≤ i) && decide (i ≤ en)) 0 l =
      (l.take (en + 1)).drop st := by
  induction l generalizing st en with
  | nil => simp [filterIdx]
  | cons x xs ih =>
    rw [filterIdx, filterIdx_shift]
    match st, en with
    | 0, 0 =>
      have hpred : (fun (i : ℕ) (a : α) => decide (0 ≤ i + 1) && decide (i + 1 ≤ 0)) =
          (fun _ _ => false) := by
        funext i a
        simp
      simp only [hpred, filterIdx_false]
      simp
    | 0, en + 1 =>
      have hpred : (fun (i : ℕ) (a : α) => decide (0 ≤ i + 1) && decide (i + 1 ≤ en + 1)) =
          (fun i (_ : α) => decide (0 ≤ i) && decide (i ≤ en)) := by
        funext i a
        simp [Nat.succ_le_succ_iff]
      simp only [hpred]
      rw [ih]
      simp
    | st + 1, 0 =>
      have hpred : (fun (i : ℕ) (a : α) => decide (st + 1 ≤ i + 1) && decide (i + 1 ≤ 0)) =
          (fun _ _ => false) := by
        funext i a
        simp
      simp only [hpred, filterIdx_false]
      simp
    | st + 1, en + 1 =>
      have hpred : (fun (i : ℕ) (a : α) =>
            decide (st + 1 ≤ i + 1) && decide (i + 1 ≤ en + 1)) =
          (fun i (_ : α) => decide (st ≤ i) && decide (i ≤ en)) := by
        funext i a
        simp [Nat.succ_le_succ_iff]
      simp only [hpred]
      rw [ih]
      simp

theorem jsMapIdx_length {α β : Type} (f : ℕ → α → β) (l : List α) (k : ℕ) :
    (jsMapIdx f k l).length = l.length := by
  induction l generalizing k with
  | nil => rfl
  | cons x xs ih => simp [jsMapIdx, ih]

theorem jsMapIdx_get? {α β : Type} (f : ℕ → α → β) (l : List α) (k i : ℕ) :
    (jsMapIdx f k l).get? i = (l.get? i).map (f (k + i)) := by
  induction l generalizing k i with
  | nil => simp [jsMapIdx]
  | cons x xs ih =>
    match i with
    | 0 => simp [jsMapIdx]
    | i + 1 =>
      have harg : k + 1 + i = k + (i + 1) := by omega
      simpa [jsMapIdx, harg] using ih (k + 1) i

/-- Folding addition of a projected value, as the JavaScript reduce
calls do, equals the sum of the projections. -/
theorem foldl_add_proj {α : Type} (f : α → ℚ) (l : List α) (init : ℚ) :
    l.foldl (fun acc x => acc + f x) init = init + (l.map f).sum := by
  induction l generalizing init with
  | nil => simp
  | cons x xs ih => simp [ih, add_assoc]

/-! ### Fold lemmas for the per-axis min/max of the bounding box -/

theorem foldl_min_le (xs : List ℚ) (x : ℚ) :
    xs.foldl min x ≤ x ∧ ∀ y ∈ xs, xs.foldl min x ≤ y := by
  induction xs generalizing x with
  | nil => simp
  | cons a l ih =>
    rcases ih (min x a) with ⟨h₁, h₂⟩
    refine ⟨le_trans h₁ (min_le_left x a), ?_⟩
    intro y hy
    rcases List.mem_cons.mp hy with rfl | hy'
    · exact le_trans h₁ (min_le_right x y)
    · exact h₂ y hy'

theorem foldl_min_mem (xs : List ℚ) (x : ℚ) :
    xs.foldl min x = x ∨ xs.foldl min x ∈ xs := by
  induction xs generalizing x with
  | nil => simp
  | cons a l ih =>
    rcases ih (min x a) with h | h
    · rcases min_choice x a with hc | hc
      · exact Or.inl (by simpa [hc] using h)
      · exact Or.inr (List.mem_cons.mpr (Or.inl (by simpa [hc] using h)))
    · exact Or.inr (List.mem_cons.mpr (Or.inr h))

theorem foldl_max_le (xs : List ℚ) (x : ℚ) :
    x ≤ xs.foldl max x ∧ ∀ y ∈ xs, y ≤ xs.foldl max x := by
  induction xs generalizing x with
  | nil => simp
  | cons a l ih =>
    rcases ih (max x a) with ⟨h₁, h₂⟩
    refine ⟨le_trans (le_max_left x a) h₁, ?_⟩
    intro y hy
    rcases List.mem_cons.mp hy with rfl | hy'
    · exact le_trans (le_max_right x y) h₁
    · exact h₂ y hy'

theorem foldl_max_mem (xs : List ℚ) (x : ℚ) :
    xs.foldl max x = x ∨ xs.foldl max x ∈ xs := by
  induction xs generalizing x with
  | nil => simp
  | cons a l ih =>
    rcases ih (max x a) with h | h
    · rcases max_choice x a with hc | hc
      · exact Or.inl (by simpa [hc] using h)
      · exact Or.inr (List.mem_cons.mpr (Or.inl (by simpa [hc] using h)))
    · exact Or.inr (List.mem_cons.mpr (Or.inr h))

theorem jsMinList_mem (l : List ℚ) (h : l ≠ []) : jsMinList l ∈ l := by
  cases l with
  | nil => exact absurd rfl h
  | cons x xs =>
    rcases foldl_min_mem xs x with hm | hm
    · exact List.mem_cons.mpr (Or.inl (by simpa [jsMinList] using hm))
    · exact List.mem_cons.mpr (Or.inr (by simpa [jsMinList] using hm))

theorem jsMinList_le (l : List ℚ) : ∀ y ∈ l, jsMinList l ≤ y := by
  cases l with
  | nil => intro y hy; cases hy
  | cons x xs =>
    intro y hy
    rcases List.mem_cons.mp hy with rfl | hy'
    · exact (foldl_min_le xs y).1
    · exact (foldl_min_le xs x).2 y hy'

theorem jsMaxList_mem (l : List ℚ) (h : l ≠ []) : jsMaxList l ∈ l := by
  cases l with
  | nil => exact absurd rfl h
  | cons x xs =>
    rcases foldl_max_mem xs x with hm | hm
    · exact List.mem_cons.mpr (Or.inl (by simpa [jsMaxList] using hm))
    · exact List.mem_cons.mpr (Or.inr (by simpa [jsMaxList] using hm))

theorem jsMaxList_le (l : List ℚ) : ∀ y ∈ l, y ≤ jsMaxList l := by
  cases l with
  | nil => intro y hy; cases hy
  | cons x xs =>
    intro y hy
    rcases List.mem_cons.mp hy with rfl | hy'
    · exact (foldl_max_le xs y).1
    · exact (foldl_max_le xs x).2 y hy'

/-! ### Claim theorems -/

/-- C1: for every non-absent value v and every rule set R, the color
evaluator sorts R ascending by threshold with a stable sort (the sorted
copy is pairwise ascending, and the elements at any fixed threshold keep
their original relative order) and returns the color of the first rule in
that order whose operator/threshold test passes, the fixed default when
none does; in particular, for rules below 10 to A, at least 10 to B, at
least 25 to C and v = 30, it returns B, the smallest matching threshold,
not C. -/
theorem C1_first_ascending_match (v : ℚ) (R : List ColorRule) :
    (sortRules R).Pairwise leByValue
    ∧ (∀ q : ℚ, (sortRules R).filter (fun r => decide (r.value = q)) =
        R.filter (fun r => decide (r.value = q)))
    ∧ getPolygonColor (some v) R =
        (((sortRules R).find? (ruleMatches v)).map ColorRule.color).getD ("#94a3b8")
    ∧ getPolygonColor (some 30) exampleRulesC1 = "B" := by
  refine ⟨sortRules_pairwise R, fun q => sortRules_stable R q, ?_, by decide⟩
  simp [getPolygonColor, firstMatchColor_eq_find]

/-- C4 counterexample: the claim quantifies over every rule set and every
shuffle, but for two rules sharing the threshold 5 with different colors,
evaluating the value 5 returns the first rule's color, so swapping the two
rules changes the result: the stable re-sort keeps ties in input order and
is therefore not order-independent. -/
theorem C4_counterexample :
    List.Perm tieRules tieRulesShuffled
    ∧ getPolygonColor (some 5) tieRules ≠ getPolygonColor (some 5) tieRulesShuffled := by
  decide

/-- C4 amended: for rule sets with pairwise distinct thresholds,
colorFor(v, R) equals colorFor(v, shuffle R) for every value v, absent
included; determinism is inherent, the evaluator being a pure function of
its two arguments.  For rule sets with repeated thresholds the stable
re-sort keeps ties in input order, so order independence does not hold in
general. -/
theorem C4_amended_perm_invariant (v : Option ℚ) (R R' : List ColorRule)
    (hp : List.Perm R R') (hd : (R.map ColorRule.value).Nodup) :
    getPolygonColor v R = getPolygonColor v R' := by
  cases v with
  | none => rfl
  | some q =>
    simp [getPolygonColor, sortRules_eq_of_perm_of_nodup_values R R' hp hd]

/-- Witness for C4 amended: a concrete distinct-threshold rule set, a
concrete shuffle of it, and the evaluator agreeing on both. -/
theorem C4_amended_perm_invariant_witness :
    List.Perm distinctRules distinctRulesShuffled
    ∧ (distinctRules.map ColorRule.value).Nodup
    ∧ getPolygonColor (some 30) distinctRules =
        getPolygonColor (some 30) distinctRulesShuffled :=
  ⟨by decide, by decide,
    C4_amended_perm_invariant (some 30) distinctRules distinctRulesShuffled
      (by decide) (by decide)⟩

/-- C6 counterexample: the claim says the no-data color is distinct from
every rule color of every rule set, but for a rule set containing a rule
colored with the no-data color itself, the absent-value result equals that
rule color. -/
theorem C6_counterexample :
    getPolygonColor none grayRules = "#gray-400"
    ∧ "#gray-400" ∈ grayRules.map ColorRule.color := by
  decide

/-- C6 amended: for every rule set R, colorFor(absent, R) is the fixed
no-data color, and for every value matching no rule the evaluator returns
the fixed no-match default; the two fixed colors differ from each other,
but nothing keeps a user-supplied rule color from coinciding with either
of them. -/
theorem C6_amended_fixed_fallback_colors (R : List ColorRule) (v : ℚ)
    (h : ∀ r ∈ R, ruleMatches v r = false) :
    getPolygonColor none R = "#gray-400"
    ∧ getPolygonColor (some v) R = "#94a3b8"
    ∧ ("#gray-400" : String) ≠ "#94a3b8" := by
  refine ⟨rfl, ?_, by decide⟩
  have hnone : (sortRules R).find? (ruleMatches v) = none :=
    List.find?_eq_none.mpr (fun x hx => by
      simp [h x ((sortRules_perm R).mem_iff.mp hx)])
  simp [getPolygonColor, firstMatchColor_eq_find, hnone]

/-- Witness for C6 amended: a concrete rule set that the value 5 matches
nowhere, with the two fixed fallback colors produced. -/
theorem C6_amended_fixed_fallback_colors_witness :
    (∀ r ∈ noMatchRules, ruleMatches 5 r = false)
    ∧ (getPolygonColor none noMatchRules = "#gray-400"
        ∧ getPolygonColor (some 5) noMatchRules = "#94a3b8"
        ∧ ("#gray-400" : String) ≠ "#94a3b8") :=
  ⟨by decide, C6_amended_fixed_fallback_colors noMatchRules 5 (by decide)⟩

/-- C2: for every time series, base date and single-mode hour offset, the
resolver computes the target instant as the base calendar date shifted
back 15 days then forward by the offset in hours (the base date's own
hour-of-day is overwritten by setHours and plays no role), renders it as
an hour-truncated ISO string, and returns the value of the first series
entry whose timestamp starts with that string, absent when none does. -/
theorem C2_single_mode_hour_lookup (wd : List WeatherData) (bd : ℤ) (bh : ℕ)
    (off : ℕ) (rng : ℕ × ℕ) (ps : List Polygon) (sel : Option String) (dm : Bool)
    (dss : List DataSource) (il : Bool) (pid : String) :
    getPolygonCurrentValue
        ⟨⟨TimelineMode.single, off, rng, bd, bh⟩, ps, sel, dm, dss, [(pid, wd)], il⟩ pid
      = (wd.find? (fun d =>
            d.timestamp.startsWith
              (hourStampOfInstant (singleTargetInstant bd off)))).map WeatherData.value := by
  have h1 : singleTargetInstant bd off / 24 = bd - 15 + ((off / 24 : ℕ) : ℤ) := by
    unfold singleTargetInstant
    omega
  have h2 : (singleTargetInstant bd off % 24).toNat = off % 24 := by
    unfold singleTargetInstant
    omega
  have hstamp : hourStampOfInstant (singleTargetInstant bd off)
      = formatDay (bd - 15 + ((off / 24 : ℕ) : ℤ)) ++ "T" ++ pad2 (off % 24) ++ ":00" := by
    rw [hourStampOfInstant, h1, h2]
  rw [hstamp]
  simp only [getPolygonCurrentValue, lookupWeather, beq_self_eq_true, if_true]
  by_cases hw : wd.length = 0
  · have hnil : wd = [] := List.length_eq_zero.mp hw
    subst hnil
    simp
  · simp only [hw, if_false]
    cases hfind : wd.find? (fun d =>
        d.timestamp.startsWith
          (formatDay (bd - 15 + ((off / 24 : ℕ) : ℤ)) ++ "T" ++ pad2 (off % 24) ++ ":00")) with
    | none => simp [hfind]
    | some r => simp [hfind]

/-- C3: for every non-empty time series and range-mode selection
[start, end], the resolver averages the entries at positions start
through end inclusive (the positional slice, truncated at the series
end), and returns absent when that slice is empty. -/
theorem C3_range_positional_mean (wd : List WeatherData) (st en : ℕ) (hr : ℕ)
    (bd : ℤ) (bh : ℕ) (ps : List Polygon) (sel : Option String) (dm : Bool)
    (dss : List DataSource) (il : Bool) (pid : String) (h : wd ≠ []) :
    getPolygonCurrentValue
        ⟨⟨TimelineMode.range, hr, (st, en), bd, bh⟩, ps, sel, dm, dss, [(pid, wd)], il⟩ pid
      = (if ((wd.take (en + 1)).drop st).length = 0 then none
         else some ((((wd.take (en + 1)).drop st).map WeatherData.value).sum /
             (((wd.take (en + 1)).drop st).length : ℚ))) := by
  have hw : ¬ wd.length = 0 := fun h0 => h (List.length_eq_zero.mp h0)
  simp only [getPolygonCurrentValue, lookupWeather, beq_self_eq_true, if_true]
  simp only [hw, if_false]
  rw [filterIdx_window, foldl_add_proj]
  simp

/-- Witness for C3: the 720-point series with values 0..719 and the range
[350, 370]; the positional slice has 21 entries and the resolver returns
their mean, 360. -/
theorem C3_range_positional_mean_witness :
    series720 ≠ []
    ∧ (getPolygonCurrentValue
          ⟨⟨TimelineMode.range, 360, (350, 370), 19723, 0⟩, [], none, false, [],
            [("p", series720)], false⟩ "p"
        = (if ((series720.take 371).drop 350).length = 0 then none
           else some ((((series720.take 371).drop 350).map WeatherData.value).sum /
               (((series720.take 371).drop 350).length : ℚ))))
    ∧ (if ((series720.take 371).drop 350).length = 0 then none
       else some ((((series720.take 371).drop 350).map WeatherData.value).sum /
           (((series720.take 371).drop 350).length : ℚ))) = some 360 := by
  have hne : series720 ≠ [] :=
    List.ne_nil_of_length_pos (by rw [series720, List.length_replicate]; norm_num)
  refine ⟨hne, ?_, ?_⟩
  · exact C3_range_positional_mean series720 350 370 360 19723 0 [] none false [] false
      ("p") hne
  · have h1 : (371 : ℕ) ⊓ 720 = 371 := by omega
    rw [series720, List.take_replicate, h1, List.drop_replicate, List.map_replicate]
    simp only [List.length_replicate, List.sum_replicate]
    norm_num

/-- C5: the resolver is a total function that returns absent when the
polygon has no cached series or an empty one, in both timeline modes (the
state, and with it the mode, is arbitrary); the rule evaluator is likewise
total, so neither can throw. -/
theorem C5_resolver_absent_on_missing (s : DashboardState) (pid : String)
    (h : lookupWeather s.weatherData pid = none
      ∨ lookupWeather s.weatherData pid = some []) :
    getPolygonCurrentValue s pid = none := by
  rcases h with h | h
  · unfold getPolygonCurrentValue
    rw [h]
  · unfold getPolygonCurrentValue
    rw [h]
    simp

/-- Witness for C5: a state with an empty cache resolves to absent. -/
theorem C5_resolver_absent_on_missing_witness :
    (lookupWeather emptyState.weatherData ("p") = none
      ∨ lookupWeather emptyState.weatherData ("p") = some [])
    ∧ getPolygonCurrentValue emptyState ("p") = none :=
  ⟨Or.inl rfl, C5_resolver_absent_on_missing emptyState ("p") (Or.inl rfl)⟩

/-- C7: the fetchWeatherDataForPolygon path of TimelineSlider.tsx issues
the outbound request without consulting isValidDateForAPI: for a base
date far outside the valid window both endpoints of the 30-day range fail
validation, yet the path still reaches the remote call (while the
Dashboard.tsx path, which does validate, skips it).  The date-window
predicate itself is the claimed inequality test by definition. -/
theorem C7_slider_fetch_skips_validation :
    isValidDateForAPI 2000000000000 ((getDateRangeMs (-3000000000000)).1) = false
    ∧ isValidDateForAPI 2000000000000 ((getDateRangeMs (-3000000000000)).2) = false
    ∧ timelineSliderIssuesRemoteRequest true 2000000000000 (-3000000000000) = true
    ∧ dashboardIssuesRemoteRequest 2000000000000 (-3000000000000) = false := by
  decide

/-- C8 counterexample: deleting the only polygon leaves the polygon list
empty, but the weather cache still holds the series keyed by the deleted
polygon's id — the entry is not destroyed. -/
theorem C8_counterexample :
    (removePolygon ("p1") stateWithPolygonOne).polygons = []
    ∧ lookupWeather ((removePolygon ("p1") stateWithPolygonOne).weatherData) ("p1")
        = some [weatherPointOne] := by
  decide

/-- C8 amended: after removePolygon(id) the polygon list contains no
polygon with that id, but the weather-data cache is left untouched, so an
entry keyed by the deleted id survives until it is overwritten. -/
theorem C8_amended_cache_not_purged (s : DashboardState) (id : String) :
    ((removePolygon id s).polygons.all (fun p => p.id != id)) = true
    ∧ (removePolygon id s).weatherData = s.weatherData := by
  refine ⟨?_, rfl⟩
  simp only [removePolygon, List.all_eq_true]
  intro p hp
  exact (List.mem_filter.mp hp).2

/-- C9: for every non-empty point list the centroid is the pair of
per-axis arithmetic means, and the bounding box fields are attained
per-axis minima and maxima; on the spec's square the centroid is (1, 1)
and the box is {0, 2, 0, 2}. -/
theorem C9_geometry_centroid_bbox (pts : List (ℚ × ℚ)) (h : pts ≠ []) :
    calculateCentroid pts =
        ((pts.map Prod.fst).sum / (pts.length : ℚ), (pts.map Prod.snd).sum / (pts.length : ℚ))
    ∧ (calculateBoundingBox pts).minLat ∈ pts.map Prod.fst
    ∧ (∀ x ∈ pts.map Prod.fst, (calculateBoundingBox pts).minLat ≤ x)
    ∧ (calculateBoundingBox pts).maxLat ∈ pts.map Prod.fst
    ∧ (∀ x ∈ pts.map Prod.fst, x ≤ (calculateBoundingBox pts).maxLat)
    ∧ (calculateBoundingBox pts).minLng ∈ pts.map Prod.snd
    ∧ (∀ x ∈ pts.map Prod.snd, (calculateBoundingBox pts).minLng ≤ x)
    ∧ (calculateBoundingBox pts).maxLng ∈ pts.map Prod.snd
    ∧ (∀ x ∈ pts.map Prod.snd, x ≤ (calculateBoundingBox pts).maxLng)
    ∧ calculateCentroid squarePts = (1, 1)
    ∧ calculateBoundingBox squarePts = ⟨0, 2, 0, 2⟩ := by
  have hlat : pts.map Prod.fst ≠ [] := by
    cases pts with
    | nil => exact absurd rfl h
    | cons a l => simp
  have hlng : pts.map Prod.snd ≠ [] := by
    cases pts with
    | nil => exact absurd rfl h
    | cons a l => simp
  have hbox : calculateBoundingBox pts =
      ⟨jsMinList (pts.map Prod.fst), jsMaxList (pts.map Prod.fst),
        jsMinList (pts.map Prod.snd), jsMaxList (pts.map Prod.snd)⟩ := rfl
  rw [hbox]
  dsimp only
  refine ⟨?_, jsMinList_mem _ hlat, jsMinList_le _, jsMaxList_mem _ hlat, jsMaxList_le _,
    jsMinList_mem _ hlng, jsMinList_le _, jsMaxList_mem _ hlng, jsMaxList_le _,
    by norm_num [calculateCentroid, squarePts], by decide⟩
  simp [calculateCentroid, foldl_add_proj]

/-- Witness for C9: the square point list is non-empty and its centroid,
through the general theorem, is (1, 1). -/
theorem C9_geometry_centroid_bbox_witness :
    squarePts ≠ [] ∧ calculateCentroid squarePts = (1, 1) :=
  ⟨by decide,
    (C9_geometry_centroid_bbox squarePts (by decide)).2.2.2.2.2.2.2.2.2.1⟩

/-- C10: the adapter produces one point per entry of the hourly time
array, in order (equal length, and the point at index i pairs the i-th
timestamp with the JavaScript value `valueArray[i] || 0`); whenever that
indexed read is falsy — past the end, null, NaN, or a genuine reading of
0 — the stored value is 0, and by type the stored value is always a
number, never null or undefined. -/
theorem C10_transform_zip_or_zero (pid : String) (ts : List String)
    (vs : List JsNum) (i : ℕ) :
    (transformWeatherData pid ts vs).length = ts.length
    ∧ (transformWeatherData pid ts vs).get? i =
        (ts.get? i).map (fun t => ⟨pid, t, jsOrZero (vs.get? i)⟩)
    ∧ (jsFalsy (vs.get? i) = true → jsOrZero (vs.get? i) = 0) := by
  refine ⟨jsMapIdx_length _ _ _, ?_, ?_⟩
  · rw [transformWeatherData, jsMapIdx_get?]
    simp
  · intro h
    cases hv : vs.get? i with
    | none => rfl
    | some v =>
      cases v with
      | num q =>
        rw [hv] at h
        simp only [jsFalsy, beq_iff_eq] at h
        simp [jsOrZero, h]
      | jnull => rfl
      | jnan => rfl

/-- Witness for C10: a NaN cell at index 0 is falsy and is stored as 0. -/
theorem C10_transform_zip_or_zero_witness :
    jsFalsy ([JsNum.jnan].get? 0) = true ∧ jsOrZero ([JsNum.jnan].get? 0) = 0 :=
  ⟨by decide,
    (C10_transform_zip_or_zero ("p") ["t0"] [JsNum.jnan] 0).2.2 (by decide)⟩

end Mapflow
